import Mathlib

set_option linter.unusedVariables false

/-!
Formalisation of PyVirtuCamera.

The repository ships a single source file, src/virtucamera/vc_base.py, holding
the abstract adapter interface VCBase. Its concrete default method bodies are
embedded here directly. The core components described by the specification
(CameraRegistry, KeyframeSynchronizer, CaptureSession, ScriptInvoker,
TransformCodec) are implemented outside the repository (in the closed-source
VCServer and in per-application adapters); where a property is decided by that
missing code, the component is modelled from the specification text, and each
such definition carries a doc comment starting with `Modelled from the spec:`.
-/

/-- Error taxonomy of the specification (section 7): ValidationError,
NotFoundError, StateError. -/
inductive VCError where
  | validationError
  | notFoundError
  | stateError
  deriving DecidableEq, Repr

/-- Capture mode negotiated at capture start (vc_base.py docstrings:
CAPMODE_SCREENSHOT, CAPMODE_BUFFER, CAPMODE_BUFFER_POINTER). -/
inductive CaptureMode where
  | screenshotRegion
  | bufferMode
  | bufferPointer
  deriving DecidableEq, Repr

/-- CaptureSession states of the specification (section 4.5):
Idle, Starting, Capturing, Stopping. -/
inductive SessionState where
  | idle
  | starting
  | capturing
  | stopping
  deriving DecidableEq, Repr

/-- View of the VCServer instance passed to every VCBase method as `vcserver`:
the fields a default method body could observe (capture mode, session state,
negotiated resolution). -/
structure VCServerRef where
  capture_mode : CaptureMode
  session_state : SessionState
  capture_width : Nat
  capture_height : Nat
  deriving DecidableEq, Repr

/-- 4x4 matrices over the rationals stand in for the tuples of 16 floats
exchanged through the interface (row-major, translation in the last row). -/
abbrev Mat4 := Matrix (Fin 4) (Fin 4) ℚ

/-- A capture payload: one of a coordinate pair, a pixel buffer, or a raw
memory address (spec section 6). -/
inductive Payload where
  | coords (x y : ℚ)
  | pixels (buf : List Nat)
  | address (addr : Nat)
  deriving DecidableEq, Repr

namespace VCBase

/-- Default body of VCBase.execute_script (vc_base.py lines 639-667): the body
is `return False`, so for every script index and camera name the call returns
False and raises no exception. -/
def execute_script (vcserver : VCServerRef) (script_index : Int)
    (current_camera : String) : Except VCError Bool :=
  .ok false

/-- Default body of VCBase.get_capture_coords (vc_base.py lines 439-468): the
body is `pass`, so the call returns None and raises no exception. -/
def get_capture_coords (vcserver : VCServerRef) (camera_name : String) :
    Except VCError (Option (ℚ × ℚ)) :=
  .ok none

/-- Default body of VCBase.get_capture_buffer (vc_base.py lines 470-498): the
body is `pass`, so the call returns None and raises no exception. -/
def get_capture_buffer (vcserver : VCServerRef) (camera_name : String) :
    Except VCError (Option (List Nat)) :=
  .ok none

/-- Default body of VCBase.get_capture_pointer (vc_base.py lines 500-530): the
body is `pass`, so the call returns None and raises no exception. -/
def get_capture_pointer (vcserver : VCServerRef) (camera_name : String) :
    Except VCError (Option Nat) :=
  .ok none

end VCBase

/-- Modelled from the spec: per-camera keyframe state kept by the
CameraRegistry / KeyframeSynchronizer (spec sections 3 and 4.3); the concrete
store lives in the per-application adapter, absent from src/. A keyframe is a
(frame, value) pair; transform keys carry a 4x4 matrix, focal-length keys a
single value. -/
structure CameraState where
  transform_keys : List (ℚ × Mat4)
  flen_keys : List (ℚ × ℚ)

/-- Modelled from the spec: CameraRegistry.hasKeys (spec section 4.2),
surfaced through VCBase.get_camera_has_keys (vc_base.py lines 187-209) as the
pair (transform_has_keys, focal_length_has_keys). -/
def CameraState.get_camera_has_keys (cam : CameraState) : Bool × Bool :=
  (!cam.transform_keys.isEmpty, !cam.flen_keys.isEmpty)

/-- Modelled from the spec: KeyframeSynchronizer.setFocalKeys (spec section
4.3), the contract of VCBase.set_camera_flen_keys (vc_base.py lines 307-330);
the implementation lives in the per-application adapter, absent from src/.
Parallel sequences of equal length are zipped into new keys; a length
mismatch fails with ValidationError and produces no new state. -/
def CameraState.set_camera_flen_keys (cam : CameraState) (keyframes : List ℚ)
    (focal_length_values : List ℚ) : Except VCError CameraState :=
  if keyframes.length = focal_length_values.length then
    .ok { cam with flen_keys := cam.flen_keys ++ keyframes.zip focal_length_values }
  else
    .error VCError.validationError

/-- Modelled from the spec: KeyframeSynchronizer.setTransformKeys (spec
section 4.3), the contract of VCBase.set_camera_transform_keys (vc_base.py
lines 332-366); the implementation lives in the per-application adapter,
absent from src/. -/
def CameraState.set_camera_transform_keys (cam : CameraState) (keyframes : List ℚ)
    (transform_matrix_values : List Mat4) : Except VCError CameraState :=
  if keyframes.length = transform_matrix_values.length then
    .ok { cam with transform_keys := cam.transform_keys ++ keyframes.zip transform_matrix_values }
  else
    .error VCError.validationError

/-- The camera state observed after a setFocalKeys call: the new state on
success, the unchanged prior state when the call raised. -/
def CameraState.after_set_flen (cam : CameraState) (keyframes : List ℚ)
    (focal_length_values : List ℚ) : CameraState :=
  match cam.set_camera_flen_keys keyframes focal_length_values with
  | .ok c => c
  | .error _ => cam

/-- The camera state observed after a setTransformKeys call: the new state on
success, the unchanged prior state when the call raised. -/
def CameraState.after_set_transform (cam : CameraState) (keyframes : List ℚ)
    (transform_matrix_values : List Mat4) : CameraState :=
  match cam.set_camera_transform_keys keyframes transform_matrix_values with
  | .ok c => c
  | .error _ => cam

/-- Modelled from the spec: KeyframeSynchronizer.removeKeys (spec section
4.3), the contract of VCBase.remove_camera_keys (vc_base.py lines 368-381);
the implementation lives in the per-application adapter, absent from src/. It
clears both transform and focal-length keyframes unconditionally and never
fails. -/
def CameraState.remove_camera_keys (cam : CameraState) : CameraState :=
  { transform_keys := [], flen_keys := [] }

/-- Modelled from the spec: the CameraRegistry (spec section 4.2); the
concrete registry is the host scene, accessed through the per-application
adapter, absent from src/. -/
structure CameraRegistry where
  cameras : List String

/-- Modelled from the spec: CameraRegistry.list, surfaced through
VCBase.get_scene_cameras (vc_base.py lines 150-165). -/
def CameraRegistry.get_scene_cameras (r : CameraRegistry) : List String :=
  r.cameras

/-- Modelled from the spec: CameraRegistry.exists, surfaced through
VCBase.get_camera_exists (vc_base.py lines 167-185): True exactly when the
name is among the scene cameras. -/
def CameraRegistry.get_camera_exists (r : CameraRegistry) (camera_name : String) : Bool :=
  r.cameras.contains camera_name

/-- Modelled from the spec: the CaptureSession (spec sections 3 and 4.5); the
concrete session lives in the closed-source VCServer, absent from src/. The
adapter-reported fields stand for what the SceneAdapter would hand back for
the current frame. -/
structure CaptureSession where
  state : SessionState
  mode : CaptureMode
  width : Nat
  height : Nat
  adapter_coords : ℚ × ℚ
  adapter_pixels : List Nat
  adapter_addr : Nat

/-- Modelled from the spec: a CaptureSession frame request in
ScreenshotRegion mode (spec section 4.5); outside the Capturing state it
fails with StateError. -/
def CaptureSession.request_coords (s : CaptureSession) : Except VCError (ℚ × ℚ) :=
  if s.state = SessionState.capturing then .ok s.adapter_coords
  else .error VCError.stateError

/-- Modelled from the spec: a CaptureSession frame request in Buffer mode
(spec section 4.5); outside the Capturing state it fails with StateError. -/
def CaptureSession.request_buffer (s : CaptureSession) : Except VCError (List Nat) :=
  if s.state = SessionState.capturing then .ok s.adapter_pixels
  else .error VCError.stateError

/-- Modelled from the spec: a CaptureSession frame request in BufferPointer
mode (spec section 4.5); outside the Capturing state it fails with
StateError. -/
def CaptureSession.request_pointer (s : CaptureSession) : Except VCError Nat :=
  if s.state = SessionState.capturing then .ok s.adapter_addr
  else .error VCError.stateError

/-- Modelled from the spec: CaptureSession.stop (spec section 4.5): the
session passes through Stopping, releases all backing buffers, and returns to
Idle. -/
def CaptureSession.stop (s : CaptureSession) : CaptureSession :=
  { s with state := SessionState.idle, adapter_pixels := [] }

/-- Modelled from the spec: the internally owned double buffer of
BufferPointer mode (spec sections 3, 4.5 and 5): two backing stores,
alternating, with `exposed` naming the store whose address was last handed
out. -/
structure DoubleBuf where
  store : Fin 2 → List Nat
  exposed : Fin 2

/-- Modelled from the spec: one BufferPointer frame request against the
double buffer (spec sections 4.5 and 5): the incoming frame is written into
the store that is not currently exposed, and only then does that store become
the exposed one; the previously exposed store is left untouched. -/
def DoubleBuf.acquire (db : DoubleBuf) (new_pixels : List Nat) : DoubleBuf :=
  { store := Function.update db.store (1 - db.exposed) new_pixels,
    exposed := 1 - db.exposed }

/-- Modelled from the spec: the outcome of one underlying custom-script
action (spec section 4.6): success, or a failure carrying a diagnostic
message. -/
inductive ScriptOutcome where
  | success
  | failure (msg : String)

/-- Modelled from the spec: one ScriptEntry (spec section 3): a label shown
in the app, and the action run when its button is tapped. -/
structure Script where
  label : String
  action : String → ScriptOutcome

/-- Modelled from the spec: the ScriptInvoker (spec section 4.6), the
index-addressed custom-action table behind VCBase.get_script_labels and
VCBase.execute_script; the dispatching layer lives in the closed-source
VCServer, absent from src/. -/
structure ScriptInvoker where
  scripts : List Script

/-- Modelled from the spec: ScriptInvoker.listLabels (spec section 4.6),
surfaced through VCBase.get_script_labels (vc_base.py lines 616-637): the
ordered labels of the script table. -/
def ScriptInvoker.get_script_labels (inv : ScriptInvoker) : List String :=
  inv.scripts.map Script.label

/-- Modelled from the spec: ScriptInvoker.execute (spec section 4.6). An
out-of-range index fails with ValidationError; an in-range script runs, and a
failure of the underlying action is collapsed to False with the diagnostic
message going only to the side-channel log (the second component). -/
def ScriptInvoker.execute (inv : ScriptInvoker) (script_index : Nat)
    (current_camera : String) : Except VCError (Bool × List String) :=
  match inv.scripts[script_index]? with
  | none => .error VCError.validationError
  | some s =>
    match s.action current_camera with
    | ScriptOutcome.success => .ok (true, [])
    | ScriptOutcome.failure msg => .ok (false, [msg])

/-- Modelled from the spec: a TransformCodec convention (spec section 4.1).
The spec leaves the concrete conventions abstract; each is modelled by its
orthonormal change-of-basis matrix into a canonical frame. -/
structure Convention where
  basis : Mat4
  orth : basis * basis.transpose = 1

/-- The canonical convention of vc_base.py (row-major, Y-up, translation in
the last row): its change of basis is the identity. It shows the Convention
type is inhabited. -/
def canonicalConvention : Convention :=
  ⟨1, by simp⟩

/-- Modelled from the spec: TransformCodec.convert (spec section 4.1), a pure
function taking a row-major 4x4 transform expressed in the source convention
to the target convention by the orthonormal change of basis between the two
frames; it builds a fresh matrix and leaves its input untouched. -/
def convert (matrix : Mat4) (source target : Convention) : Mat4 :=
  target.basis * source.basis.transpose * matrix *
    (source.basis * target.basis.transpose)

/-- Claim C1: a keyframe write whose frames and values (or matrices)
sequences differ in length fails with ValidationError, and the camera's
prior keyframe state — including the answer of a subsequent hasKeys query —
is completely unchanged; no partial write is applied. -/
theorem C1_keyframe_write_all_or_nothing (cam : CameraState)
    (keyframes focal_length_values : List ℚ) (transform_matrix_values : List Mat4)
    (hf : keyframes.length ≠ focal_length_values.length)
    (ht : keyframes.length ≠ transform_matrix_values.length) :
    cam.set_camera_flen_keys keyframes focal_length_values =
      .error VCError.validationError ∧
    cam.after_set_flen keyframes focal_length_values = cam ∧
    (cam.after_set_flen keyframes focal_length_values).get_camera_has_keys =
      cam.get_camera_has_keys ∧
    cam.set_camera_transform_keys keyframes transform_matrix_values =
      .error VCError.validationError ∧
    cam.after_set_transform keyframes transform_matrix_values = cam ∧
    (cam.after_set_transform keyframes transform_matrix_values).get_camera_has_keys =
      cam.get_camera_has_keys := by
  have ef : cam.set_camera_flen_keys keyframes focal_length_values =
      .error VCError.validationError := by
    unfold CameraState.set_camera_flen_keys
    rw [if_neg hf]
  have et : cam.set_camera_transform_keys keyframes transform_matrix_values =
      .error VCError.validationError := by
    unfold CameraState.set_camera_transform_keys
    rw [if_neg ht]
  have af : cam.after_set_flen keyframes focal_length_values = cam := by
    unfold CameraState.after_set_flen
    rw [ef]
  have at2 : cam.after_set_transform keyframes transform_matrix_values = cam := by
    unfold CameraState.after_set_transform
    rw [et]
  exact ⟨ef, af, by rw [af], et, at2, by rw [at2]⟩

/-- Witness for C1 at the spec's own example: frames [1,2,3] against values
[10,20] (and against an empty matrix list) on a camera without keys. -/
theorem C1_keyframe_write_all_or_nothing_witness :
    ([(1 : ℚ), 2, 3].length ≠ [(10 : ℚ), 20].length) ∧
    ([(1 : ℚ), 2, 3].length ≠ ([] : List Mat4).length) ∧
    (CameraState.set_camera_flen_keys ⟨[], []⟩ [1, 2, 3] [10, 20] =
      .error VCError.validationError ∧
    CameraState.after_set_flen ⟨[], []⟩ [1, 2, 3] [10, 20] = (⟨[], []⟩ : CameraState) ∧
    (CameraState.after_set_flen ⟨[], []⟩ [1, 2, 3] [10, 20]).get_camera_has_keys =
      (⟨[], []⟩ : CameraState).get_camera_has_keys ∧
    CameraState.set_camera_transform_keys ⟨[], []⟩ [1, 2, 3] [] =
      .error VCError.validationError ∧
    CameraState.after_set_transform ⟨[], []⟩ [1, 2, 3] [] = (⟨[], []⟩ : CameraState) ∧
    (CameraState.after_set_transform ⟨[], []⟩ [1, 2, 3] []).get_camera_has_keys =
      (⟨[], []⟩ : CameraState).get_camera_has_keys) :=
  ⟨by decide, by decide,
    C1_keyframe_write_all_or_nothing ⟨[], []⟩ [1, 2, 3] [10, 20] []
      (by decide) (by decide)⟩

/-- Claim C6: removeKeys clears both transform and focal-length keyframes,
so a following hasKeys query answers (false, false) — in particular after a
setTransformKeys — and removeKeys is idempotent: a second call returns the
same state as the first and is not an error (in the model it is total). -/
theorem C6_remove_keys_clears_and_idempotent (cam : CameraState)
    (keyframes : List ℚ) (transform_matrix_values : List Mat4) :
    cam.remove_camera_keys.get_camera_has_keys = (false, false) ∧
    cam.remove_camera_keys.remove_camera_keys = cam.remove_camera_keys ∧
    ((cam.after_set_transform keyframes
        transform_matrix_values).remove_camera_keys).get_camera_has_keys =
      (false, false) :=
  ⟨rfl, rfl, rfl⟩

/-- Claim C7: the camera listing and the existence predicate agree exactly:
a name tests as existing if and only if it is contained in the sequence
returned by get_scene_cameras. -/
theorem C7_listing_and_exists_agree (r : CameraRegistry) (camera_name : String) :
    r.get_camera_exists camera_name = true ↔
      camera_name ∈ r.get_scene_cameras := by
  unfold CameraRegistry.get_camera_exists CameraRegistry.get_scene_cameras
  exact List.elem_iff

/-- Claim C2: in every capture-session state that is not Capturing — the
Idle state before start as well as any state reached after stop — each of
the three frame-request operations fails with StateError instead of
returning a payload; in particular every frame request on a stopped session
fails with StateError. -/
theorem C2_frame_request_outside_capturing (s t : CaptureSession)
    (h : s.state ≠ SessionState.capturing) :
    s.request_coords = .error VCError.stateError ∧
    s.request_buffer = .error VCError.stateError ∧
    s.request_pointer = .error VCError.stateError ∧
    t.stop.request_coords = .error VCError.stateError ∧
    t.stop.request_buffer = .error VCError.stateError ∧
    t.stop.request_pointer = .error VCError.stateError := by
  refine ⟨?_, ?_, ?_, ?_, ?_, ?_⟩ <;>
    simp [CaptureSession.request_coords, CaptureSession.request_buffer,
      CaptureSession.request_pointer, CaptureSession.stop, h]

/-- Witness for C2: a concrete Idle session and a concrete Capturing
session that gets stopped. -/
theorem C2_frame_request_outside_capturing_witness :
    ((⟨SessionState.idle, CaptureMode.bufferMode, 640, 480, (0, 0), [], 0⟩ :
        CaptureSession).state ≠ SessionState.capturing) ∧
    ((⟨SessionState.idle, CaptureMode.bufferMode, 640, 480, (0, 0), [], 0⟩ :
        CaptureSession).request_coords = .error VCError.stateError ∧
    (⟨SessionState.idle, CaptureMode.bufferMode, 640, 480, (0, 0), [], 0⟩ :
        CaptureSession).request_buffer = .error VCError.stateError ∧
    (⟨SessionState.idle, CaptureMode.bufferMode, 640, 480, (0, 0), [], 0⟩ :
        CaptureSession).request_pointer = .error VCError.stateError ∧
    (⟨SessionState.capturing, CaptureMode.bufferPointer, 800, 600, (0, 0), [7], 42⟩ :
        CaptureSession).stop.request_coords = .error VCError.stateError ∧
    (⟨SessionState.capturing, CaptureMode.bufferPointer, 800, 600, (0, 0), [7], 42⟩ :
        CaptureSession).stop.request_buffer = .error VCError.stateError ∧
    (⟨SessionState.capturing, CaptureMode.bufferPointer, 800, 600, (0, 0), [7], 42⟩ :
        CaptureSession).stop.request_pointer = .error VCError.stateError) :=
  ⟨by decide,
    C2_frame_request_outside_capturing
      ⟨SessionState.idle, CaptureMode.bufferMode, 640, 480, (0, 0), [], 0⟩
      ⟨SessionState.capturing, CaptureMode.bufferPointer, 800, 600, (0, 0), [7], 42⟩
      (by decide)⟩

/-- Claim C3: a script index that is not a valid 0-based position into the
most recently returned script listing makes execute fail with
ValidationError. -/
theorem C3_out_of_range_index_validation (inv : ScriptInvoker)
    (script_index : Nat) (current_camera : String)
    (h : inv.get_script_labels.length ≤ script_index) :
    inv.execute script_index current_camera = .error VCError.validationError := by
  have hlen : inv.scripts.length ≤ script_index := by
    simpa [ScriptInvoker.get_script_labels] using h
  unfold ScriptInvoker.execute
  rw [List.getElem?_eq_none hlen]

/-- Witness for C3 at the spec's own example: index 5 against a listing of
3 scripts. -/
theorem C3_out_of_range_index_validation_witness :
    ((ScriptInvoker.mk [⟨"a", fun _ => ScriptOutcome.success⟩,
        ⟨"b", fun _ => ScriptOutcome.success⟩,
        ⟨"c", fun _ => ScriptOutcome.success⟩]).get_script_labels.length ≤ 5) ∧
    (ScriptInvoker.mk [⟨"a", fun _ => ScriptOutcome.success⟩,
        ⟨"b", fun _ => ScriptOutcome.success⟩,
        ⟨"c", fun _ => ScriptOutcome.success⟩]).execute 5 "CamA" =
      .error VCError.validationError :=
  ⟨by simp [ScriptInvoker.get_script_labels],
    C3_out_of_range_index_validation
      (ScriptInvoker.mk [⟨"a", fun _ => ScriptOutcome.success⟩,
        ⟨"b", fun _ => ScriptOutcome.success⟩,
        ⟨"c", fun _ => ScriptOutcome.success⟩]) 5 "CamA"
      (by simp [ScriptInvoker.get_script_labels])⟩

/-- Claim C4: for an in-range script index, a failure of the underlying
script action is never propagated as a structured error: execute returns
the boolean false, with the diagnostic message only in the side-channel log,
and never a structured VCError. -/
theorem C4_script_failure_collapsed_to_false (inv : ScriptInvoker)
    (script_index : Nat) (current_camera msg : String)
    (h : script_index < inv.scripts.length)
    (hfail : (inv.scripts[script_index]).action current_camera =
      ScriptOutcome.failure msg) :
    inv.execute script_index current_camera = .ok (false, [msg]) ∧
    ∀ e : VCError, inv.execute script_index current_camera ≠ .error e := by
  have hget : inv.scripts[script_index]? = some (inv.scripts[script_index]) :=
    List.getElem?_eq_getElem h
  have hrun : inv.execute script_index current_camera = .ok (false, [msg]) := by
    simp [ScriptInvoker.execute, hget, hfail]
  exact ⟨hrun, fun e hc => by rw [hrun] at hc; exact Except.noConfusion hc⟩

/-- Witness for C4: a one-entry script table whose action fails with
message `boom`. -/
theorem C4_script_failure_collapsed_to_false_witness :
    (0 < (ScriptInvoker.mk [⟨"s", fun _ => ScriptOutcome.failure "boom"⟩]).scripts.length) ∧
    (((ScriptInvoker.mk [⟨"s", fun _ => ScriptOutcome.failure "boom"⟩]).scripts[0]).action
        "CamA" = ScriptOutcome.failure "boom") ∧
    ((ScriptInvoker.mk [⟨"s", fun _ => ScriptOutcome.failure "boom"⟩]).execute 0 "CamA" =
      .ok (false, ["boom"]) ∧
    ∀ e : VCError,
      (ScriptInvoker.mk [⟨"s", fun _ => ScriptOutcome.failure "boom"⟩]).execute 0 "CamA" ≠
        .error e) :=
  ⟨by simp, rfl,
    C4_script_failure_collapsed_to_false
      (ScriptInvoker.mk [⟨"s", fun _ => ScriptOutcome.failure "boom"⟩]) 0 "CamA" "boom"
      (by simp) rfl⟩

/-- Claim C8: in BufferPointer mode, one frame request against the double
buffer populates and exposes the store that was not exposed, so the buffer
whose address was handed out by the previous request stays unmodified until
the new request completes, and the newly exposed store is a different store
holding the new frame. -/
theorem C8_pointer_buffer_valid_until_next_request (db : DoubleBuf)
    (new_pixels : List Nat) :
    (db.acquire new_pixels).store db.exposed = db.store db.exposed ∧
    (db.acquire new_pixels).exposed ≠ db.exposed ∧
    (db.acquire new_pixels).store (db.acquire new_pixels).exposed = new_pixels := by
  have hne : (1 : Fin 2) - db.exposed ≠ db.exposed := by
    have : ∀ x : Fin 2, (1 : Fin 2) - x ≠ x := by decide
    exact this db.exposed
  refine ⟨?_, ?_, ?_⟩
  · exact Function.update_noteq (fun hc => hne hc.symm) new_pixels db.store
  · exact hne
  · exact Function.update_same (1 - db.exposed) new_pixels db.store

/-- A convention basis is orthonormal on the other side as well. -/
theorem Convention.transpose_mul_self (c : Convention) :
    c.basis.transpose * c.basis = 1 :=
  Matrix.mul_eq_one_comm.mp c.orth

/-- The change of basis from one convention into another and the change back
compose to the identity. -/
theorem convention_change_inv (A B : Convention) :
    (B.basis * A.basis.transpose) * (A.basis * B.basis.transpose) = 1 := by
  rw [Matrix.mul_assoc, ← Matrix.mul_assoc A.basis.transpose,
    A.transpose_mul_self, Matrix.one_mul]
  exact B.orth

/-- Claim C5: for every transform matrix M and every pair of conventions A
and B, the TransformCodec round trip convert(convert(M, A, B), B, A) equals
M exactly, hence agrees with M within 1e-6 per element; convert is a pure
function of its arguments, so the input matrix is not mutated. -/
theorem C5_transform_codec_round_trip (A B : Convention) (M : Mat4) :
    convert (convert M A B) B A = M ∧
    ∀ i j : Fin 4, |convert (convert M A B) B A i j - M i j| ≤ 1 / 1000000 := by
  have hmain : convert (convert M A B) B A = M := by
    have hassoc : convert (convert M A B) B A =
        (A.basis * B.basis.transpose) * (B.basis * A.basis.transpose) * M *
          ((A.basis * B.basis.transpose) * (B.basis * A.basis.transpose)) := by
      unfold convert
      simp only [Matrix.mul_assoc]
    rw [hassoc, convention_change_inv B A, Matrix.one_mul, Matrix.mul_one]
  refine ⟨hmain, fun i j => ?_⟩
  rw [hmain]
  simp

/-- Claim C9: the default (non-overridden) VCBase.execute_script returns
False for every script index and every camera name, never returns True and
never raises — in particular never ValidationError. -/
theorem C9_default_execute_script_returns_false (vcserver : VCServerRef)
    (script_index : Int) (current_camera : String) :
    VCBase.execute_script vcserver script_index current_camera = .ok false ∧
    VCBase.execute_script vcserver script_index current_camera ≠ .ok true ∧
    ∀ e : VCError,
      VCBase.execute_script vcserver script_index current_camera ≠ .error e :=
  ⟨rfl, fun hc => by simp [VCBase.execute_script] at hc,
    fun e hc => by simp [VCBase.execute_script] at hc⟩

/-- Claim C10: the default (non-overridden) capture frame-request methods
return None for every vcserver view (hence regardless of capture mode or
session state) and every camera name, never a payload and never an
exception — a non-overriding adapter silently yields None, not a StateError. -/
theorem C10_default_capture_methods_return_none (vcserver : VCServerRef)
    (camera_name : String) :
    VCBase.get_capture_coords vcserver camera_name = .ok none ∧
    VCBase.get_capture_buffer vcserver camera_name = .ok none ∧
    VCBase.get_capture_pointer vcserver camera_name = .ok none ∧
    (∀ e : VCError,
      VCBase.get_capture_coords vcserver camera_name ≠ .error e ∧
      VCBase.get_capture_buffer vcserver camera_name ≠ .error e ∧
      VCBase.get_capture_pointer vcserver camera_name ≠ .error e) ∧
    (∀ xy : ℚ × ℚ,
      VCBase.get_capture_coords vcserver camera_name ≠ .ok (some xy)) ∧
    (∀ buf : List Nat,
      VCBase.get_capture_buffer vcserver camera_name ≠ .ok (some buf)) ∧
    ∀ addr : Nat,
      VCBase.get_capture_pointer vcserver camera_name ≠ .ok (some addr) :=
  ⟨rfl, rfl, rfl,
    fun e => ⟨fun hc => by simp [VCBase.get_capture_coords] at hc,
      fun hc => by simp [VCBase.get_capture_buffer] at hc,
      fun hc => by simp [VCBase.get_capture_pointer] at hc⟩,
    fun xy hc => by simp [VCBase.get_capture_coords] at hc,
    fun buf hc => by simp [VCBase.get_capture_buffer] at hc,
    fun addr hc => by simp [VCBase.get_capture_pointer] at hc⟩
